import Mathlib

/-!
# Verification of the GolangSizer bicubic resampling core

A shallow embedding of the image-resizer core (packages `interpolation`,
`validator` and `resizer`) and proofs of the specified properties.

Modelling conventions:
* Go `float64` arithmetic is modelled by exact rational arithmetic (`ℚ`).
  All quantities occurring in the resampling pipeline are rational, so the
  embedding is exact; `math.IsNaN` / `math.IsInf` are identically false over
  `ℚ` and the corresponding defensive branch of `InterpolateBicubic` can
  never fire in the model.  For the clamping functions, which the spec also
  constrains at `±Inf`, a small extended type `Fl` (finite rational, `+Inf`,
  `-Inf`) is additionally provided, mirroring Go float comparisons.
* Go `int` is modelled by `ℤ`; `uint8`/`uint16` results by `ℕ`.
* Go's error returns `(zero, err)` are modelled by `Except ResizeError α`.
* `image.Image` sources are modelled by `SrcImage`: dimensions, a color
  model tag, and `At : ℤ → ℤ → ℕ × ℕ × ℕ × ℕ` returning the four channels
  as Go's `Color.RGBA()` does (alpha-premultiplied 16-bit range values;
  for an 8-bit gray pixel `y` this is `y * 0x101` in every channel).
* Destination buffers are modelled by row-major pixel lists so that a
  whole resize result is a decidable-equality value.
-/

/-- Decidable equality for `Except` results (kernel-reducible, so that
concrete resize runs can be settled by `decide`). -/
instance exceptDecEq {ε α : Type} [DecidableEq ε] [DecidableEq α] :
    DecidableEq (Except ε α) := fun a b =>
  match a, b with
  | .ok x, .ok y =>
      if h : x = y then .isTrue (congrArg Except.ok h)
      else .isFalse (fun hh => h (Except.ok.inj hh))
  | .error x, .error y =>
      if h : x = y then .isTrue (congrArg Except.error h)
      else .isFalse (fun hh => h (Except.error.inj hh))
  | .ok _, .error _ => .isFalse (fun hh => Except.noConfusion hh)
  | .error _, .ok _ => .isFalse (fun hh => Except.noConfusion hh)

/-- Union of the error values of the Go packages that the core can surface
through `Resize` (`ErrInvalidCoordinate`, `ErrInvalidChannel`,
`ErrInvalidDimension`, `ErrNilImage`). -/
inductive ResizeError
  | invalidCoordinate
  | invalidChannel
  | invalidDimension
  | nilImage
deriving DecidableEq, Repr

namespace interpolation

/-- `KernelSize`: the bicubic kernel support (4x4 pixels). -/
def KernelSize : ℕ := 4

/-- `MaxUint8` from the interpolation package. -/
def MaxUint8 : ℚ := 255

/-- `MaxUint16` from the interpolation package. -/
def MaxUint16 : ℚ := 65535

/-- The Mitchell-Netravali `B` parameter (`const b = 1.0 / 3.0`). -/
def mnB : ℚ := 1 / 3

/-- The Mitchell-Netravali `C` parameter (`const c = 1.0 / 3.0`). -/
def mnC : ℚ := 1 / 3

/-- The first polynomial piece of `CubicWeight` (the `x < 1.0` branch body),
as a function of the distance `t = |x|`. -/
def piece1 (t : ℚ) : ℚ :=
  ((12 - 9 * mnB - 6 * mnC) * t * t * t + (-18 + 12 * mnB + 6 * mnC) * t * t + (6 - 2 * mnB)) / 6

/-- The second polynomial piece of `CubicWeight` (the `x < 2.0` branch body),
as a function of the distance `t = |x|`. -/
def piece2 (t : ℚ) : ℚ :=
  ((-mnB - 6 * mnC) * t * t * t + (6 * mnB + 30 * mnC) * t * t
      + (-12 * mnB - 48 * mnC) * t + (8 * mnB + 24 * mnC)) / 6

/-- `math.Abs`, written as an explicit conditional (definitionally equal to
`|x|`, but kernel-reducible on concrete rationals). -/
def absF (x : ℚ) : ℚ := if x < 0 then -x else x

/-- `CubicWeight` calculates the bicubic interpolation weight
(Mitchell-Netravali filter with B = C = 1/3). -/
def CubicWeight (x : ℚ) : ℚ :=
  let t := absF x
  if t < 1 then piece1 t
  else if t < 2 then piece2 t
  else 0

/-- Truncation toward zero, the semantics of Go's float-to-int conversion
`int(x)` / `uint8(x)` / `uint16(x)` for in-range values. -/
def truncQ (x : ℚ) : ℤ :=
  if x < 0 then ⌈x⌉ else ⌊x⌋

/-- `ClampUint8` ensures value is within valid uint8 range (the finite case;
see `ClampUint8X` for the `±Inf` extension). -/
def ClampUint8 (value : ℚ) : ℕ :=
  if value < 0 then 0
  else if value > MaxUint8 then 255
  else (truncQ (value + 1/2)).toNat

/-- `ClampUint16` ensures value is within valid uint16 range (the finite
case; see `ClampUint16X` for the `±Inf` extension). -/
def ClampUint16 (value : ℚ) : ℕ :=
  if value < 0 then 0
  else if value > MaxUint16 then 65535
  else (truncQ (value + 1/2)).toNat

/-- Extended float values: finite rationals plus the two infinities.  NaN is
excluded: the claims constrain only finite and infinite inputs. -/
inductive Fl
  | fin (q : ℚ)
  | pinf
  | ninf
deriving DecidableEq, Repr

/-- The IEEE `<` comparison restricted to `Fl` (as Go's `<` on `float64`
behaves on non-NaN values). -/
def Fl.flt : Fl → Fl → Bool
  | .fin a, .fin b => a < b
  | .ninf, .fin _ => true
  | .ninf, .pinf => true
  | .fin _, .pinf => true
  | _, _ => false

/-- `ClampUint8` over extended floats, mirroring the Go control flow: the
`value < 0.0` test, then the `value > MaxUint8` test, then the conversion
`uint8(value + 0.5)`.  Both infinities are caught by the two comparison
guards, so the conversion arm is only ever reached on finite values. -/
def ClampUint8X (value : Fl) : ℕ :=
  if Fl.flt value (.fin 0) then 0
  else if Fl.flt (.fin MaxUint8) value then 255
  else
    match value with
    | .fin q => (truncQ (q + 1/2)).toNat
    | .pinf => 255
    | .ninf => 0

/-- `ClampUint16` over extended floats; see `ClampUint8X`. -/
def ClampUint16X (value : Fl) : ℕ :=
  if Fl.flt value (.fin 0) then 0
  else if Fl.flt (.fin MaxUint16) value then 65535
  else
    match value with
    | .fin q => (truncQ (q + 1/2)).toNat
    | .pinf => 65535
    | .ninf => 0

/-- `GetSafeIndex` returns a clamped index within bounds. -/
def GetSafeIndex (index maxIndex : ℤ) : ℤ :=
  if index < 0 then 0
  else if index ≥ maxIndex then maxIndex - 1
  else index

/-- `CalculateKernelBounds` determines the pixel sampling region for bicubic
interpolation. -/
def CalculateKernelBounds (center : ℚ) (maxBound : ℤ) : Except ResizeError (ℤ × ℤ) :=
  let halfKernel : ℤ := (KernelSize : ℤ) / 2
  if center < 0 ∨ center ≥ (maxBound : ℚ) then .error .invalidCoordinate
  else
    let start := ⌊center⌋ - halfKernel + 1
    let stop := start + (KernelSize : ℤ)
    if stop - start ≠ (KernelSize : ℤ) then .error .invalidCoordinate
    else .ok (start, stop)

/-- `InterpolateBicubic` performs bicubic interpolation on a 4x4 pixel grid.
The sum mirrors the double loop of the source (`rowSum` accumulated over
`i`, then `result` accumulated over `j`).  The source's final
`math.IsNaN || math.IsInf` check is identically false over exact rationals
and therefore contributes no branch to the model. -/
def InterpolateBicubic (pixels : Fin KernelSize → Fin KernelSize → ℚ) (dx dy : ℚ) :
    Except ResizeError ℚ :=
  if dx < 0 ∨ dx > 1 ∨ dy < 0 ∨ dy > 1 then .error .invalidCoordinate
  else
    .ok (∑ j : Fin KernelSize,
          (∑ i : Fin KernelSize, pixels j i * CubicWeight ((i.1 : ℚ) - 1 - dx))
            * CubicWeight ((j.1 : ℚ) - 1 - dy))

end interpolation

namespace validator

/-- `MaxImageDimension` prevents integer overflow and memory exhaustion. -/
def MaxImageDimension : ℤ := 65535

/-- `MinImageDimension`. -/
def MinImageDimension : ℤ := 1

/-- `ValidateDimensions` checks if image dimensions are within safe bounds. -/
def ValidateDimensions (width height : ℤ) : Except ResizeError Unit :=
  if width < MinImageDimension ∨ height < MinImageDimension then .error .invalidDimension
  else if width > MaxImageDimension ∨ height > MaxImageDimension then .error .invalidDimension
  else if width * height > MaxImageDimension * MaxImageDimension then .error .invalidDimension
  else .ok ()

/-- `maxScaleFactor = 16.0`. -/
def maxScaleFactor : ℚ := 16

/-- `minScaleFactor = 0.0625` (exactly 1/16, exactly representable). -/
def minScaleFactor : ℚ := 1 / 16

/-- `ValidateResizeRatio` checks if the resize ratio is within the
acceptable range (after validating all four dimensions). -/
def ValidateResizeRatio (originalWidth originalHeight newWidth newHeight : ℤ) :
    Except ResizeError Unit :=
  match ValidateDimensions originalWidth originalHeight with
  | .error e => .error e
  | .ok _ =>
    match ValidateDimensions newWidth newHeight with
    | .error e => .error e
    | .ok _ =>
      let widthRatio : ℚ := (newWidth : ℚ) / (originalWidth : ℚ)
      let heightRatio : ℚ := (newHeight : ℚ) / (originalHeight : ℚ)
      if widthRatio > maxScaleFactor ∨ widthRatio < minScaleFactor then
        .error .invalidDimension
      else if heightRatio > maxScaleFactor ∨ heightRatio < minScaleFactor then
        .error .invalidDimension
      else .ok ()

end validator

namespace resizer

/-- `Config` holds resize operation parameters (`Quality` is 0-100,
currently unused but reserved for future). -/
structure Config where
  targetWidth : ℤ
  targetHeight : ℤ
  quality : ℤ
deriving DecidableEq, Repr

/-- The color models `Resize` dispatches on.  `other` stands for any model
outside the four supported families (the `default` switch arm). -/
inductive ColorModel
  | rgba
  | nrgba
  | rgba64
  | nrgba64
  | gray
  | gray16
  | other
deriving DecidableEq, Repr

/-- A source `image.Image`: bounds, color model, and the pixel accessor.
`At x y` returns the four channel values as Go's `Color.RGBA()` call does,
i.e. in the alpha-premultiplied 16-bit range `[0, 65535]`. -/
structure SrcImage where
  width : ℤ
  height : ℤ
  model : ColorModel
  At : ℤ → ℤ → ℕ × ℕ × ℕ × ℕ

/-- A destination `*image.RGBA`: row-major 8-bit RGBA pixels. -/
structure RGBAImage where
  width : ℤ
  height : ℤ
  pixels : List (List (ℕ × ℕ × ℕ × ℕ))
deriving DecidableEq, Repr

/-- A destination `*image.RGBA64`: row-major 16-bit RGBA pixels. -/
structure RGBA64Image where
  width : ℤ
  height : ℤ
  pixels : List (List (ℕ × ℕ × ℕ × ℕ))
deriving DecidableEq, Repr

/-- A destination `*image.Gray`: row-major 8-bit gray pixels. -/
structure GrayImage where
  width : ℤ
  height : ℤ
  pixels : List (List ℕ)
deriving DecidableEq, Repr

/-- A destination `*image.Gray16`: row-major 16-bit gray pixels. -/
structure Gray16Image where
  width : ℤ
  height : ℤ
  pixels : List (List ℕ)
deriving DecidableEq, Repr

/-- The `image.Image` returned by `Resize`, tagged with the concrete
destination type of the dispatch path that produced it. -/
inductive OutImage
  | rgba8 (img : RGBAImage)
  | rgba16 (img : RGBA64Image)
  | gray8 (img : GrayImage)
  | gray16 (img : Gray16Image)
deriving DecidableEq, Repr

/-- `Bounds().Dx()` of an output image. -/
def OutImage.width : OutImage → ℤ
  | .rgba8 img => img.width
  | .rgba16 img => img.width
  | .gray8 img => img.width
  | .gray16 img => img.width

/-- `Bounds().Dy()` of an output image. -/
def OutImage.height : OutImage → ℤ
  | .rgba8 img => img.height
  | .rgba16 img => img.height
  | .gray8 img => img.height
  | .gray16 img => img.height

/-- Effectful map over a list, aborting at the first error: the shape of the
per-pixel loops of the resize paths (`for ... { if err != nil return err }`). -/
def exceptMap {α β : Type} (f : α → Except ResizeError β) : List α → Except ResizeError (List β)
  | [] => .ok []
  | a :: as =>
    match f a with
    | .error e => .error e
    | .ok b =>
      match exceptMap f as with
      | .error e => .error e
      | .ok bs => .ok (b :: bs)

/-- `sampleRGBA` performs bicubic sampling for RGBA channels: kernel bounds
on both axes, fractional offsets by `int()` truncation, a 4x4 gather of each
channel (16-bit values shifted down to 8 bits), one interpolation per
channel, and 8-bit clamping. -/
def sampleRGBA (src : SrcImage) (x y : ℚ) (width height : ℤ) :
    Except ResizeError (ℕ × ℕ × ℕ × ℕ) :=
  match interpolation.CalculateKernelBounds x width with
  | .error e => .error e
  | .ok (startX, _stopX) =>
    match interpolation.CalculateKernelBounds y height with
    | .error e => .error e
    | .ok (startY, _stopY) =>
      let dx := x - (interpolation.truncQ x : ℚ)
      let dy := y - (interpolation.truncQ y : ℚ)
      let sampleAt : Fin interpolation.KernelSize → Fin interpolation.KernelSize → ℕ × ℕ × ℕ × ℕ :=
        fun j i =>
          src.At (interpolation.GetSafeIndex (startX + (i.1 : ℤ)) width)
                 (interpolation.GetSafeIndex (startY + (j.1 : ℤ)) height)
      let rPixels := fun j i => (((sampleAt j i).1 >>> 8 : ℕ) : ℚ)
      let gPixels := fun j i => (((sampleAt j i).2.1 >>> 8 : ℕ) : ℚ)
      let bPixels := fun j i => (((sampleAt j i).2.2.1 >>> 8 : ℕ) : ℚ)
      let aPixels := fun j i => (((sampleAt j i).2.2.2 >>> 8 : ℕ) : ℚ)
      match interpolation.InterpolateBicubic rPixels dx dy with
      | .error e => .error e
      | .ok rVal =>
        match interpolation.InterpolateBicubic gPixels dx dy with
        | .error e => .error e
        | .ok gVal =>
          match interpolation.InterpolateBicubic bPixels dx dy with
          | .error e => .error e
          | .ok bVal =>
            match interpolation.InterpolateBicubic aPixels dx dy with
            | .error e => .error e
            | .ok aVal =>
              .ok (interpolation.ClampUint8 rVal, interpolation.ClampUint8 gVal,
                   interpolation.ClampUint8 bVal, interpolation.ClampUint8 aVal)

/-- `sampleRGBA64` performs bicubic sampling for 16-bit RGBA (raw 16-bit
channel values, 16-bit clamping). -/
def sampleRGBA64 (src : SrcImage) (x y : ℚ) (width height : ℤ) :
    Except ResizeError (ℕ × ℕ × ℕ × ℕ) :=
  match interpolation.CalculateKernelBounds x width with
  | .error e => .error e
  | .ok (startX, _stopX) =>
    match interpolation.CalculateKernelBounds y height with
    | .error e => .error e
    | .ok (startY, _stopY) =>
      let dx := x - (interpolation.truncQ x : ℚ)
      let dy := y - (interpolation.truncQ y : ℚ)
      let sampleAt : Fin interpolation.KernelSize → Fin interpolation.KernelSize → ℕ × ℕ × ℕ × ℕ :=
        fun j i =>
          src.At (interpolation.GetSafeIndex (startX + (i.1 : ℤ)) width)
                 (interpolation.GetSafeIndex (startY + (j.1 : ℤ)) height)
      let rPixels := fun j i => (((sampleAt j i).1 : ℕ) : ℚ)
      let gPixels := fun j i => (((sampleAt j i).2.1 : ℕ) : ℚ)
      let bPixels := fun j i => (((sampleAt j i).2.2.1 : ℕ) : ℚ)
      let aPixels := fun j i => (((sampleAt j i).2.2.2 : ℕ) : ℚ)
      match interpolation.InterpolateBicubic rPixels dx dy with
      | .error e => .error e
      | .ok rVal =>
        match interpolation.InterpolateBicubic gPixels dx dy with
        | .error e => .error e
        | .ok gVal =>
          match interpolation.InterpolateBicubic bPixels dx dy with
          | .error e => .error e
          | .ok bVal =>
            match interpolation.InterpolateBicubic aPixels dx dy with
            | .error e => .error e
            | .ok aVal =>
              .ok (interpolation.ClampUint16 rVal, interpolation.ClampUint16 gVal,
                   interpolation.ClampUint16 bVal, interpolation.ClampUint16 aVal)

/-- `sampleGray` performs bicubic sampling for grayscale: the first channel
of `RGBA()` shifted down to 8 bits, one interpolation, 8-bit clamping. -/
def sampleGray (src : SrcImage) (x y : ℚ) (width height : ℤ) : Except ResizeError ℕ :=
  match interpolation.CalculateKernelBounds x width with
  | .error e => .error e
  | .ok (startX, _stopX) =>
    match interpolation.CalculateKernelBounds y height with
    | .error e => .error e
    | .ok (startY, _stopY) =>
      let dx := x - (interpolation.truncQ x : ℚ)
      let dy := y - (interpolation.truncQ y : ℚ)
      let pixels : Fin interpolation.KernelSize → Fin interpolation.KernelSize → ℚ :=
        fun j i =>
          (((src.At (interpolation.GetSafeIndex (startX + (i.1 : ℤ)) width)
                    (interpolation.GetSafeIndex (startY + (j.1 : ℤ)) height)).1 >>> 8 : ℕ) : ℚ)
      match interpolation.InterpolateBicubic pixels dx dy with
      | .error e => .error e
      | .ok val => .ok (interpolation.ClampUint8 val)

/-- `sampleGray16` performs bicubic sampling for 16-bit grayscale. -/
def sampleGray16 (src : SrcImage) (x y : ℚ) (width height : ℤ) : Except ResizeError ℕ :=
  match interpolation.CalculateKernelBounds x width with
  | .error e => .error e
  | .ok (startX, _stopX) =>
    match interpolation.CalculateKernelBounds y height with
    | .error e => .error e
    | .ok (startY, _stopY) =>
      let dx := x - (interpolation.truncQ x : ℚ)
      let dy := y - (interpolation.truncQ y : ℚ)
      let pixels : Fin interpolation.KernelSize → Fin interpolation.KernelSize → ℚ :=
        fun j i =>
          (((src.At (interpolation.GetSafeIndex (startX + (i.1 : ℤ)) width)
                    (interpolation.GetSafeIndex (startY + (j.1 : ℤ)) height)).1 : ℕ) : ℚ)
      match interpolation.InterpolateBicubic pixels dx dy with
      | .error e => .error e
      | .ok val => .ok (interpolation.ClampUint16 val)

/-- `resizeRGBA` handles 8-bit RGBA images: re-validate the target
dimensions, then fill the destination buffer scanline by scanline with
`sampleRGBA` at half-pixel-center mapped source coordinates. -/
def resizeRGBA (r : Config) (src : SrcImage) (srcWidth srcHeight : ℤ) :
    Except ResizeError RGBAImage :=
  match validator.ValidateDimensions r.targetWidth r.targetHeight with
  | .error e => .error e
  | .ok _ =>
    let xScale : ℚ := (srcWidth : ℚ) / (r.targetWidth : ℚ)
    let yScale : ℚ := (srcHeight : ℚ) / (r.targetHeight : ℚ)
    (exceptMap (fun y =>
            exceptMap (fun x =>
                sampleRGBA src (((x : ℕ) + 1/2 : ℚ) * xScale) (((y : ℕ) + 1/2 : ℚ) * yScale)
                  srcWidth srcHeight)
              (List.range r.targetWidth.toNat))
          (List.range r.targetHeight.toNat)).map
      (fun rows => { width := r.targetWidth, height := r.targetHeight, pixels := rows })

/-- `resizeRGBA64` handles 16-bit RGBA images. -/
def resizeRGBA64 (r : Config) (src : SrcImage) (srcWidth srcHeight : ℤ) :
    Except ResizeError RGBA64Image :=
  match validator.ValidateDimensions r.targetWidth r.targetHeight with
  | .error e => .error e
  | .ok _ =>
    let xScale : ℚ := (srcWidth : ℚ) / (r.targetWidth : ℚ)
    let yScale : ℚ := (srcHeight : ℚ) / (r.targetHeight : ℚ)
    (exceptMap (fun y =>
            exceptMap (fun x =>
                sampleRGBA64 src (((x : ℕ) + 1/2 : ℚ) * xScale) (((y : ℕ) + 1/2 : ℚ) * yScale)
                  srcWidth srcHeight)
              (List.range r.targetWidth.toNat))
          (List.range r.targetHeight.toNat)).map
      (fun rows => { width := r.targetWidth, height := r.targetHeight, pixels := rows })

/-- `resizeGray` handles 8-bit grayscale images. -/
def resizeGray (r : Config) (src : SrcImage) (srcWidth srcHeight : ℤ) :
    Except ResizeError GrayImage :=
  match validator.ValidateDimensions r.targetWidth r.targetHeight with
  | .error e => .error e
  | .ok _ =>
    let xScale : ℚ := (srcWidth : ℚ) / (r.targetWidth : ℚ)
    let yScale : ℚ := (srcHeight : ℚ) / (r.targetHeight : ℚ)
    (exceptMap (fun y =>
            exceptMap (fun x =>
                sampleGray src (((x : ℕ) + 1/2 : ℚ) * xScale) (((y : ℕ) + 1/2 : ℚ) * yScale)
                  srcWidth srcHeight)
              (List.range r.targetWidth.toNat))
          (List.range r.targetHeight.toNat)).map
      (fun rows => { width := r.targetWidth, height := r.targetHeight, pixels := rows })

/-- `resizeGray16` handles 16-bit grayscale images. -/
def resizeGray16 (r : Config) (src : SrcImage) (srcWidth srcHeight : ℤ) :
    Except ResizeError Gray16Image :=
  match validator.ValidateDimensions r.targetWidth r.targetHeight with
  | .error e => .error e
  | .ok _ =>
    let xScale : ℚ := (srcWidth : ℚ) / (r.targetWidth : ℚ)
    let yScale : ℚ := (srcHeight : ℚ) / (r.targetHeight : ℚ)
    (exceptMap (fun y =>
            exceptMap (fun x =>
                sampleGray16 src (((x : ℕ) + 1/2 : ℚ) * xScale) (((y : ℕ) + 1/2 : ℚ) * yScale)
                  srcWidth srcHeight)
              (List.range r.targetWidth.toNat))
          (List.range r.targetHeight.toNat)).map
      (fun rows => { width := r.targetWidth, height := r.targetHeight, pixels := rows })

/-- `NewResizer` creates a new resizer instance: rejects invalid target
dimensions; an out-of-range `Quality` is silently replaced by 100. -/
def NewResizer (cfg : Config) : Except ResizeError Config :=
  match validator.ValidateDimensions cfg.targetWidth cfg.targetHeight with
  | .error e => .error e
  | .ok _ =>
    if cfg.quality < 0 ∨ cfg.quality > 100 then .ok { cfg with quality := 100 }
    else .ok cfg

/-- `Resize` performs the image resizing operation: nil check, source
dimension validation, ratio validation, then dispatch on the color model
(unsupported models fall back to the 8-bit RGBA path). -/
def Resize (r : Config) (src : Option SrcImage) : Except ResizeError OutImage :=
  match src with
  | none => .error .nilImage
  | some s =>
    let srcWidth := s.width
    let srcHeight := s.height
    match validator.ValidateDimensions srcWidth srcHeight with
    | .error e => .error e
    | .ok _ =>
      match validator.ValidateResizeRatio srcWidth srcHeight r.targetWidth r.targetHeight with
      | .error e => .error e
      | .ok _ =>
        match s.model with
        | .rgba => (resizeRGBA r s srcWidth srcHeight).map .rgba8
        | .nrgba => (resizeRGBA r s srcWidth srcHeight).map .rgba8
        | .rgba64 => (resizeRGBA64 r s srcWidth srcHeight).map .rgba16
        | .nrgba64 => (resizeRGBA64 r s srcWidth srcHeight).map .rgba16
        | .gray => (resizeGray r s srcWidth srcHeight).map .gray8
        | .gray16 => (resizeGray16 r s srcWidth srcHeight).map .gray16
        | .other => (resizeRGBA r s srcWidth srcHeight).map .rgba8

/-- A 4x4 8-bit grayscale source whose every pixel has value 128
(`RGBA()` reports `128 * 0x101 = 32896` per channel). -/
def srcGray4 : SrcImage :=
  { width := 4, height := 4, model := .gray, At := fun _ _ => (32896, 32896, 32896, 32896) }

/-- A 1x1 8-bit grayscale source with pixel value 128. -/
def srcGray1 : SrcImage :=
  { width := 1, height := 1, model := .gray, At := fun _ _ => (32896, 32896, 32896, 32896) }

end resizer

/-- A 10x10 8-bit grayscale source with pixel value 128 (used for the
rejected 17x upscale scenario). -/
def resizer.srcGray10 : resizer.SrcImage :=
  { width := 10, height := 10, model := .gray, At := fun _ _ => (32896, 32896, 32896, 32896) }

/-- The spec's validity condition on a resize request: source and target
dimensions each in `[1, 65535]` and the per-axis scale ratio
`target/source` in `[1/16, 16]` (stated from the spec's words, to be
compared with the code's validators). -/
def ValidResizeConfig (srcWidth srcHeight targetWidth targetHeight : ℤ) : Prop :=
  1 ≤ srcWidth ∧ srcWidth ≤ 65535 ∧ 1 ≤ srcHeight ∧ srcHeight ≤ 65535 ∧
  1 ≤ targetWidth ∧ targetWidth ≤ 65535 ∧ 1 ≤ targetHeight ∧ targetHeight ≤ 65535 ∧
  (1/16 : ℚ) ≤ (targetWidth : ℚ) / (srcWidth : ℚ) ∧ (targetWidth : ℚ) / (srcWidth : ℚ) ≤ 16 ∧
  (1/16 : ℚ) ≤ (targetHeight : ℚ) / (srcHeight : ℚ) ∧ (targetHeight : ℚ) / (srcHeight : ℚ) ≤ 16

/-! ## Helper lemmas about the kernel math -/

lemma absF_eq_abs (x : ℚ) : interpolation.absF x = |x| := by
  unfold interpolation.absF
  split_ifs with h
  · exact (abs_of_neg h).symm
  · exact (abs_of_nonneg (le_of_not_lt h)).symm

lemma cubicWeight_of_lt_one (x : ℚ) (h : |x| < 1) :
    interpolation.CubicWeight x = interpolation.piece1 |x| := by
  simp only [interpolation.CubicWeight, absF_eq_abs]
  rw [if_pos h]

lemma cubicWeight_of_lt_two (x : ℚ) (h1 : 1 ≤ |x|) (h2 : |x| < 2) :
    interpolation.CubicWeight x = interpolation.piece2 |x| := by
  simp only [interpolation.CubicWeight, absF_eq_abs]
  rw [if_neg (not_lt.2 h1), if_pos h2]

lemma cubicWeight_of_two_le (x : ℚ) (h : 2 ≤ |x|) :
    interpolation.CubicWeight x = 0 := by
  simp only [interpolation.CubicWeight, absF_eq_abs]
  rw [if_neg (not_lt.2 (by linarith)), if_neg (not_lt.2 h)]

/-- Partition of unity of the 4-tap Mitchell-Netravali kernel: for any
fractional offset `d ∈ [0, 1)` the four weights sum to exactly 1. -/
lemma kernel_sum_one (d : ℚ) (h0 : 0 ≤ d) (h1 : d < 1) :
    ∑ i : Fin interpolation.KernelSize, interpolation.CubicWeight ((i.1 : ℚ) - 1 - d) = 1 := by
  have e : ∑ i : Fin interpolation.KernelSize, interpolation.CubicWeight ((i.1 : ℚ) - 1 - d)
      = interpolation.CubicWeight (-1 - d) + interpolation.CubicWeight (0 - d)
        + interpolation.CubicWeight (1 - d) + interpolation.CubicWeight (2 - d) := by
    show ∑ i : Fin 4, interpolation.CubicWeight ((i.1 : ℚ) - 1 - d) = _
    rw [Fin.sum_univ_four]
    norm_num [show ((3 : Fin 4).1) = 3 from rfl]
  rw [e]
  rcases eq_or_lt_of_le h0 with hz | hpos
  · rw [← hz]
    with_unfolding_all rfl
  · have a1 : |(-1 - d : ℚ)| = 1 + d := by rw [abs_of_nonpos (by linarith)]; ring
    have a2 : |(0 - d : ℚ)| = d := by rw [abs_of_nonpos (by linarith)]; ring
    have a3 : |(1 - d : ℚ)| = 1 - d := abs_of_nonneg (by linarith)
    have a4 : |(2 - d : ℚ)| = 2 - d := abs_of_nonneg (by linarith)
    rw [cubicWeight_of_lt_two (-1 - d) (by rw [a1]; linarith) (by rw [a1]; linarith),
        cubicWeight_of_lt_one (0 - d) (by rw [a2]; linarith),
        cubicWeight_of_lt_one (1 - d) (by rw [a3]; linarith),
        cubicWeight_of_lt_two (2 - d) (by rw [a4]; linarith) (by rw [a4]; linarith),
        a1, a2, a3, a4]
    unfold interpolation.piece1 interpolation.piece2 interpolation.mnB interpolation.mnC
    ring

lemma truncQ_of_nonneg (x : ℚ) (h : 0 ≤ x) : interpolation.truncQ x = ⌊x⌋ := by
  unfold interpolation.truncQ
  rw [if_neg (not_lt.2 h)]

lemma sub_floor_nonneg (x : ℚ) : 0 ≤ x - (⌊x⌋ : ℚ) := by
  have := Int.floor_le x
  linarith

lemma sub_floor_lt_one (x : ℚ) : x - (⌊x⌋ : ℚ) < 1 := by
  have := Int.lt_floor_add_one x
  linarith

lemma calculateKernelBounds_ok (c : ℚ) (n : ℤ) (h0 : 0 ≤ c) (h1 : c < (n : ℚ)) :
    interpolation.CalculateKernelBounds c n = .ok (⌊c⌋ - 1, ⌊c⌋ + 3) := by
  have hcond : ¬(c < 0 ∨ c ≥ (n : ℚ)) := by push_neg; exact ⟨h0, h1⟩
  simp only [interpolation.CalculateKernelBounds, interpolation.KernelSize, hcond, if_false]
  rw [if_neg (by omega)]
  congr 1
  simp only [Prod.mk.injEq]
  omega

lemma calculateKernelBounds_err (c : ℚ) (n : ℤ) (h : c < 0 ∨ (n : ℚ) ≤ c) :
    interpolation.CalculateKernelBounds c n = .error .invalidCoordinate := by
  have hcond : c < 0 ∨ c ≥ (n : ℚ) := h
  simp [interpolation.CalculateKernelBounds, hcond]

lemma interpolateBicubic_ok (pixels : Fin interpolation.KernelSize → Fin interpolation.KernelSize → ℚ)
    (dx dy : ℚ) (h1 : 0 ≤ dx) (h2 : dx ≤ 1) (h3 : 0 ≤ dy) (h4 : dy ≤ 1) :
    interpolation.InterpolateBicubic pixels dx dy
      = .ok (∑ j : Fin interpolation.KernelSize,
              (∑ i : Fin interpolation.KernelSize,
                  pixels j i * interpolation.CubicWeight ((i.1 : ℚ) - 1 - dx))
                * interpolation.CubicWeight ((j.1 : ℚ) - 1 - dy)) := by
  have hcond : ¬(dx < 0 ∨ dx > 1 ∨ dy < 0 ∨ dy > 1) := by push_neg; exact ⟨h1, h2, h3, h4⟩
  simp only [interpolation.InterpolateBicubic, hcond, if_false]

lemma truncQ_add_half_le_zero (q : ℚ) (h : q < 0) : interpolation.truncQ (q + 1/2) ≤ 0 := by
  unfold interpolation.truncQ
  split_ifs with hneg
  · exact Int.ceil_le.2 (by push_cast; linarith)
  · calc ⌊q + 1/2⌋ ≤ ⌊(1 : ℚ)/2⌋ := Int.floor_le_floor (by linarith)
    _ = 0 := by norm_num [Int.floor_eq_iff]

lemma truncQ_eq_floor_of_half_nonneg (q : ℚ) (h : 0 ≤ q) :
    interpolation.truncQ (q + 1/2) = ⌊q + 1/2⌋ :=
  truncQ_of_nonneg _ (by linarith)

/-- The value equation for `ClampUint8`: round to nearest by adding one half
and truncating, then clamp into `[0, 255]`. -/
lemma clampUint8_eq (q : ℚ) :
    (interpolation.ClampUint8 q : ℤ) = min 255 (max 0 (interpolation.truncQ (q + 1/2))) := by
  unfold interpolation.ClampUint8 interpolation.MaxUint8
  split_ifs with hneg hbig
  · have := truncQ_add_half_le_zero q hneg
    omega
  · push_neg at hneg
    rw [truncQ_eq_floor_of_half_nonneg q hneg]
    have : (255 : ℤ) ≤ ⌊q + 1/2⌋ := Int.le_floor.2 (by push_cast; linarith)
    omega
  · push_neg at hneg hbig
    rw [truncQ_eq_floor_of_half_nonneg q hneg]
    have hlo : (0 : ℤ) ≤ ⌊q + 1/2⌋ := Int.le_floor.2 (by push_cast; linarith)
    have hhi : ⌊q + 1/2⌋ < 256 := Int.floor_lt.2 (by push_cast; linarith)
    omega

/-- The value equation for `ClampUint16`. -/
lemma clampUint16_eq (q : ℚ) :
    (interpolation.ClampUint16 q : ℤ) = min 65535 (max 0 (interpolation.truncQ (q + 1/2))) := by
  unfold interpolation.ClampUint16 interpolation.MaxUint16
  split_ifs with hneg hbig
  · have := truncQ_add_half_le_zero q hneg
    omega
  · push_neg at hneg
    rw [truncQ_eq_floor_of_half_nonneg q hneg]
    have : (65535 : ℤ) ≤ ⌊q + 1/2⌋ := Int.le_floor.2 (by push_cast; linarith)
    omega
  · push_neg at hneg hbig
    rw [truncQ_eq_floor_of_half_nonneg q hneg]
    have hlo : (0 : ℤ) ≤ ⌊q + 1/2⌋ := Int.le_floor.2 (by push_cast; linarith)
    have hhi : ⌊q + 1/2⌋ < 65536 := Int.floor_lt.2 (by push_cast; linarith)
    omega

lemma clampUint8_le (q : ℚ) : interpolation.ClampUint8 q ≤ 255 := by
  have := clampUint8_eq q
  omega

lemma clampUint16_le (q : ℚ) : interpolation.ClampUint16 q ≤ 65535 := by
  have := clampUint16_eq q
  omega

lemma clampUint8X_fin (q : ℚ) :
    interpolation.ClampUint8X (.fin q) = interpolation.ClampUint8 q := by
  unfold interpolation.ClampUint8X interpolation.ClampUint8 interpolation.Fl.flt
  simp only [decide_eq_true_eq]

lemma clampUint16X_fin (q : ℚ) :
    interpolation.ClampUint16X (.fin q) = interpolation.ClampUint16 q := by
  unfold interpolation.ClampUint16X interpolation.ClampUint16 interpolation.Fl.flt
  simp only [decide_eq_true_eq]

/-! ## Helper lemmas about the samplers and resize loops -/

lemma sampleGray_ok (s : resizer.SrcImage) (x y : ℚ) (w h : ℤ)
    (hx0 : 0 ≤ x) (hxw : x < (w : ℚ)) (hy0 : 0 ≤ y) (hyh : y < (h : ℚ)) :
    ∃ v, resizer.sampleGray s x y w h = .ok v := by
  have hdx0 : 0 ≤ x - (interpolation.truncQ x : ℚ) := by
    rw [truncQ_of_nonneg x hx0]; exact sub_floor_nonneg x
  have hdx1 : x - (interpolation.truncQ x : ℚ) ≤ 1 := by
    rw [truncQ_of_nonneg x hx0]; exact le_of_lt (sub_floor_lt_one x)
  have hdy0 : 0 ≤ y - (interpolation.truncQ y : ℚ) := by
    rw [truncQ_of_nonneg y hy0]; exact sub_floor_nonneg y
  have hdy1 : y - (interpolation.truncQ y : ℚ) ≤ 1 := by
    rw [truncQ_of_nonneg y hy0]; exact le_of_lt (sub_floor_lt_one y)
  simp only [resizer.sampleGray, calculateKernelBounds_ok x w hx0 hxw,
    calculateKernelBounds_ok y h hy0 hyh,
    interpolateBicubic_ok _ _ _ hdx0 hdx1 hdy0 hdy1]
  exact ⟨_, rfl⟩

lemma sampleGray16_ok (s : resizer.SrcImage) (x y : ℚ) (w h : ℤ)
    (hx0 : 0 ≤ x) (hxw : x < (w : ℚ)) (hy0 : 0 ≤ y) (hyh : y < (h : ℚ)) :
    ∃ v, resizer.sampleGray16 s x y w h = .ok v := by
  have hdx0 : 0 ≤ x - (interpolation.truncQ x : ℚ) := by
    rw [truncQ_of_nonneg x hx0]; exact sub_floor_nonneg x
  have hdx1 : x - (interpolation.truncQ x : ℚ) ≤ 1 := by
    rw [truncQ_of_nonneg x hx0]; exact le_of_lt (sub_floor_lt_one x)
  have hdy0 : 0 ≤ y - (interpolation.truncQ y : ℚ) := by
    rw [truncQ_of_nonneg y hy0]; exact sub_floor_nonneg y
  have hdy1 : y - (interpolation.truncQ y : ℚ) ≤ 1 := by
    rw [truncQ_of_nonneg y hy0]; exact le_of_lt (sub_floor_lt_one y)
  simp only [resizer.sampleGray16, calculateKernelBounds_ok x w hx0 hxw,
    calculateKernelBounds_ok y h hy0 hyh,
    interpolateBicubic_ok _ _ _ hdx0 hdx1 hdy0 hdy1]
  exact ⟨_, rfl⟩

lemma sampleRGBA_ok (s : resizer.SrcImage) (x y : ℚ) (w h : ℤ)
    (hx0 : 0 ≤ x) (hxw : x < (w : ℚ)) (hy0 : 0 ≤ y) (hyh : y < (h : ℚ)) :
    ∃ v, resizer.sampleRGBA s x y w h = .ok v := by
  have hdx0 : 0 ≤ x - (interpolation.truncQ x : ℚ) := by
    rw [truncQ_of_nonneg x hx0]; exact sub_floor_nonneg x
  have hdx1 : x - (interpolation.truncQ x : ℚ) ≤ 1 := by
    rw [truncQ_of_nonneg x hx0]; exact le_of_lt (sub_floor_lt_one x)
  have hdy0 : 0 ≤ y - (interpolation.truncQ y : ℚ) := by
    rw [truncQ_of_nonneg y hy0]; exact sub_floor_nonneg y
  have hdy1 : y - (interpolation.truncQ y : ℚ) ≤ 1 := by
    rw [truncQ_of_nonneg y hy0]; exact le_of_lt (sub_floor_lt_one y)
  simp only [resizer.sampleRGBA, calculateKernelBounds_ok x w hx0 hxw,
    calculateKernelBounds_ok y h hy0 hyh,
    interpolateBicubic_ok _ _ _ hdx0 hdx1 hdy0 hdy1]
  exact ⟨_, rfl⟩

lemma sampleRGBA64_ok (s : resizer.SrcImage) (x y : ℚ) (w h : ℤ)
    (hx0 : 0 ≤ x) (hxw : x < (w : ℚ)) (hy0 : 0 ≤ y) (hyh : y < (h : ℚ)) :
    ∃ v, resizer.sampleRGBA64 s x y w h = .ok v := by
  have hdx0 : 0 ≤ x - (interpolation.truncQ x : ℚ) := by
    rw [truncQ_of_nonneg x hx0]; exact sub_floor_nonneg x
  have hdx1 : x - (interpolation.truncQ x : ℚ) ≤ 1 := by
    rw [truncQ_of_nonneg x hx0]; exact le_of_lt (sub_floor_lt_one x)
  have hdy0 : 0 ≤ y - (interpolation.truncQ y : ℚ) := by
    rw [truncQ_of_nonneg y hy0]; exact sub_floor_nonneg y
  have hdy1 : y - (interpolation.truncQ y : ℚ) ≤ 1 := by
    rw [truncQ_of_nonneg y hy0]; exact le_of_lt (sub_floor_lt_one y)
  simp only [resizer.sampleRGBA64, calculateKernelBounds_ok x w hx0 hxw,
    calculateKernelBounds_ok y h hy0 hyh,
    interpolateBicubic_ok _ _ _ hdx0 hdx1 hdy0 hdy1]
  exact ⟨_, rfl⟩

lemma exceptMap_ok {α β : Type} (f : α → Except ResizeError β) :
    ∀ l : List α, (∀ a ∈ l, ∃ b, f a = .ok b) →
      ∃ out, resizer.exceptMap f l = .ok out
  | [], _ => ⟨[], rfl⟩
  | a :: as, H => by
    obtain ⟨b, hb⟩ := H a (List.mem_cons_self a as)
    obtain ⟨bs, hbs⟩ := exceptMap_ok f as (fun a2 ha2 => H a2 (List.mem_cons_of_mem _ ha2))
    exact ⟨b :: bs, by simp only [resizer.exceptMap, hb, hbs]⟩

/-- Bounds for the half-pixel-center source coordinate mapping: for a
destination index `0 ≤ x < target`, the center `(x + 0.5) * (source/target)`
lies in `[0, source)`. -/
lemma mapped_center_bounds (x : ℕ) (target source : ℤ)
    (htarget : 1 ≤ target) (hsource : 1 ≤ source) (hx : (x : ℤ) < target) :
    0 ≤ ((x : ℚ) + 1/2) * ((source : ℚ) / (target : ℚ)) ∧
      ((x : ℚ) + 1/2) * ((source : ℚ) / (target : ℚ)) < (source : ℚ) := by
  have htq : (0 : ℚ) < (target : ℚ) := by exact_mod_cast lt_of_lt_of_le one_pos htarget
  have hsq : (0 : ℚ) < (source : ℚ) := by exact_mod_cast lt_of_lt_of_le one_pos hsource
  constructor
  · apply mul_nonneg
    · positivity
    · positivity
  · have hxq : (x : ℚ) + 1/2 < (target : ℚ) := by
      have h1 : ((x : ℤ) : ℚ) + 1 ≤ (target : ℚ) := by
        exact_mod_cast Int.add_one_le_iff.2 hx
      push_cast at h1 ⊢
      linarith
    have hfrac : ((x : ℚ) + 1/2) / (target : ℚ) < 1 := (div_lt_one htq).2 hxq
    calc ((x : ℚ) + 1/2) * ((source : ℚ) / (target : ℚ))
        = (((x : ℚ) + 1/2) / (target : ℚ)) * (source : ℚ) := by ring
    _ < 1 * (source : ℚ) := by
        exact mul_lt_mul_of_pos_right hfrac hsq
    _ = (source : ℚ) := one_mul _

/-! ## Helper lemmas about the validators -/

lemma validateDimensions_cases (w h : ℤ) :
    validator.ValidateDimensions w h = .ok ()
      ∨ validator.ValidateDimensions w h = .error .invalidDimension := by
  unfold validator.ValidateDimensions
  split_ifs <;> simp

lemma validateDimensions_ok_iff (w h : ℤ) :
    validator.ValidateDimensions w h = .ok ()
      ↔ (1 ≤ w ∧ w ≤ 65535 ∧ 1 ≤ h ∧ h ≤ 65535) := by
  unfold validator.ValidateDimensions validator.MinImageDimension validator.MaxImageDimension
  split_ifs with hA hB hC
  · simp only [false_iff, reduceCtorEq]
    omega
  · simp only [false_iff, reduceCtorEq]
    omega
  · constructor
    · intro hcon
      simp at hcon
    · rintro ⟨c1, c2, c3, c4⟩
      exfalso
      nlinarith
  · simp only [true_iff]
    omega

lemma validateResizeRatio_ok_structure (ow oh nw nh : ℤ) :
    validator.ValidateResizeRatio ow oh nw nh = .ok () ↔
      (validator.ValidateDimensions ow oh = .ok ()
        ∧ validator.ValidateDimensions nw nh = .ok ()
        ∧ (1/16 : ℚ) ≤ (nw : ℚ) / (ow : ℚ) ∧ (nw : ℚ) / (ow : ℚ) ≤ 16
        ∧ (1/16 : ℚ) ≤ (nh : ℚ) / (oh : ℚ) ∧ (nh : ℚ) / (oh : ℚ) ≤ 16) := by
  unfold validator.ValidateResizeRatio validator.maxScaleFactor validator.minScaleFactor
  rcases validateDimensions_cases ow oh with hA | hA <;>
    rcases validateDimensions_cases nw nh with hB | hB <;>
      simp only [hA, hB, reduceCtorEq, false_and, and_false, iff_false, true_and]
  · split_ifs with h1 h2
    · simp only [reduceCtorEq, false_iff]
      rintro ⟨c1, c2, c3, c4⟩
      rcases h1 with h | h <;> linarith
    · simp only [reduceCtorEq, false_iff]
      rintro ⟨c1, c2, c3, c4⟩
      rcases h2 with h | h <;> linarith
    · push_neg at h1 h2
      simp only [true_iff]
      exact ⟨h1.2, h1.1, h2.2, h2.1⟩

lemma validateResizeRatio_cases (ow oh nw nh : ℤ) :
    validator.ValidateResizeRatio ow oh nw nh = .ok ()
      ∨ validator.ValidateResizeRatio ow oh nw nh = .error .invalidDimension := by
  unfold validator.ValidateResizeRatio
  rcases validateDimensions_cases ow oh with hA | hA <;>
    rcases validateDimensions_cases nw nh with hB | hB <;>
      simp only [hA, hB] <;> (try split_ifs) <;> simp

/-! ## Helper lemmas about the resize paths and the dispatcher -/

lemma except_map_exists_ok {α β : Type} (f : α → β) (e : Except ResizeError α)
    (h : ∃ a, e = .ok a) : ∃ b, e.map f = .ok b := by
  obtain ⟨a, ha⟩ := h
  exact ⟨f a, by rw [ha]; rfl⟩

lemma except_map_ok_inv {α β : Type} (f : α → β) (e : Except ResizeError α) (b : β)
    (h : e.map f = .ok b) : ∃ a, e = .ok a ∧ b = f a := by
  cases e with
  | error err => simp [Except.map] at h
  | ok a =>
    refine ⟨a, rfl, ?_⟩
    simp [Except.map] at h
    exact h.symm

lemma resizeRGBA_dims (r : resizer.Config) (s : resizer.SrcImage) (sw sh : ℤ)
    (g : resizer.RGBAImage) (hg : resizer.resizeRGBA r s sw sh = .ok g) :
    g.width = r.targetWidth ∧ g.height = r.targetHeight := by
  unfold resizer.resizeRGBA at hg
  rcases validateDimensions_cases r.targetWidth r.targetHeight with hv | hv <;>
    simp only [hv] at hg
  · obtain ⟨rows, -, hrec⟩ := except_map_ok_inv _ _ _ hg
    rw [hrec]
    exact ⟨rfl, rfl⟩
  · exact absurd hg (by simp)

lemma resizeRGBA64_dims (r : resizer.Config) (s : resizer.SrcImage) (sw sh : ℤ)
    (g : resizer.RGBA64Image) (hg : resizer.resizeRGBA64 r s sw sh = .ok g) :
    g.width = r.targetWidth ∧ g.height = r.targetHeight := by
  unfold resizer.resizeRGBA64 at hg
  rcases validateDimensions_cases r.targetWidth r.targetHeight with hv | hv <;>
    simp only [hv] at hg
  · obtain ⟨rows, -, hrec⟩ := except_map_ok_inv _ _ _ hg
    rw [hrec]
    exact ⟨rfl, rfl⟩
  · exact absurd hg (by simp)

lemma resizeGray_dims (r : resizer.Config) (s : resizer.SrcImage) (sw sh : ℤ)
    (g : resizer.GrayImage) (hg : resizer.resizeGray r s sw sh = .ok g) :
    g.width = r.targetWidth ∧ g.height = r.targetHeight := by
  unfold resizer.resizeGray at hg
  rcases validateDimensions_cases r.targetWidth r.targetHeight with hv | hv <;>
    simp only [hv] at hg
  · obtain ⟨rows, -, hrec⟩ := except_map_ok_inv _ _ _ hg
    rw [hrec]
    exact ⟨rfl, rfl⟩
  · exact absurd hg (by simp)

lemma resizeGray16_dims (r : resizer.Config) (s : resizer.SrcImage) (sw sh : ℤ)
    (g : resizer.Gray16Image) (hg : resizer.resizeGray16 r s sw sh = .ok g) :
    g.width = r.targetWidth ∧ g.height = r.targetHeight := by
  unfold resizer.resizeGray16 at hg
  rcases validateDimensions_cases r.targetWidth r.targetHeight with hv | hv <;>
    simp only [hv] at hg
  · obtain ⟨rows, -, hrec⟩ := except_map_ok_inv _ _ _ hg
    rw [hrec]
    exact ⟨rfl, rfl⟩
  · exact absurd hg (by simp)

lemma resizeRGBA_ok (r : resizer.Config) (s : resizer.SrcImage) (sw sh : ℤ)
    (h1 : 1 ≤ r.targetWidth) (h2 : r.targetWidth ≤ 65535)
    (h3 : 1 ≤ r.targetHeight) (h4 : r.targetHeight ≤ 65535)
    (h5 : 1 ≤ sw) (h6 : 1 ≤ sh) :
    ∃ g, resizer.resizeRGBA r s sw sh = .ok g := by
  have hv := (validateDimensions_ok_iff r.targetWidth r.targetHeight).2 ⟨h1, h2, h3, h4⟩
  simp only [resizer.resizeRGBA, hv]
  apply except_map_exists_ok
  apply exceptMap_ok
  intro y hy
  apply exceptMap_ok
  intro x hx
  have hxlt : (x : ℤ) < r.targetWidth := by
    have := List.mem_range.1 hx
    omega
  have hylt : (y : ℤ) < r.targetHeight := by
    have := List.mem_range.1 hy
    omega
  obtain ⟨b1, b2⟩ := mapped_center_bounds x r.targetWidth sw h1 h5 hxlt
  obtain ⟨c1, c2⟩ := mapped_center_bounds y r.targetHeight sh h3 h6 hylt
  exact sampleRGBA_ok s _ _ sw sh b1 b2 c1 c2

lemma resizeRGBA64_ok (r : resizer.Config) (s : resizer.SrcImage) (sw sh : ℤ)
    (h1 : 1 ≤ r.targetWidth) (h2 : r.targetWidth ≤ 65535)
    (h3 : 1 ≤ r.targetHeight) (h4 : r.targetHeight ≤ 65535)
    (h5 : 1 ≤ sw) (h6 : 1 ≤ sh) :
    ∃ g, resizer.resizeRGBA64 r s sw sh = .ok g := by
  have hv := (validateDimensions_ok_iff r.targetWidth r.targetHeight).2 ⟨h1, h2, h3, h4⟩
  simp only [resizer.resizeRGBA64, hv]
  apply except_map_exists_ok
  apply exceptMap_ok
  intro y hy
  apply exceptMap_ok
  intro x hx
  have hxlt : (x : ℤ) < r.targetWidth := by
    have := List.mem_range.1 hx
    omega
  have hylt : (y : ℤ) < r.targetHeight := by
    have := List.mem_range.1 hy
    omega
  obtain ⟨b1, b2⟩ := mapped_center_bounds x r.targetWidth sw h1 h5 hxlt
  obtain ⟨c1, c2⟩ := mapped_center_bounds y r.targetHeight sh h3 h6 hylt
  exact sampleRGBA64_ok s _ _ sw sh b1 b2 c1 c2

lemma resizeGray_ok (r : resizer.Config) (s : resizer.SrcImage) (sw sh : ℤ)
    (h1 : 1 ≤ r.targetWidth) (h2 : r.targetWidth ≤ 65535)
    (h3 : 1 ≤ r.targetHeight) (h4 : r.targetHeight ≤ 65535)
    (h5 : 1 ≤ sw) (h6 : 1 ≤ sh) :
    ∃ g, resizer.resizeGray r s sw sh = .ok g := by
  have hv := (validateDimensions_ok_iff r.targetWidth r.targetHeight).2 ⟨h1, h2, h3, h4⟩
  simp only [resizer.resizeGray, hv]
  apply except_map_exists_ok
  apply exceptMap_ok
  intro y hy
  apply exceptMap_ok
  intro x hx
  have hxlt : (x : ℤ) < r.targetWidth := by
    have := List.mem_range.1 hx
    omega
  have hylt : (y : ℤ) < r.targetHeight := by
    have := List.mem_range.1 hy
    omega
  obtain ⟨b1, b2⟩ := mapped_center_bounds x r.targetWidth sw h1 h5 hxlt
  obtain ⟨c1, c2⟩ := mapped_center_bounds y r.targetHeight sh h3 h6 hylt
  exact sampleGray_ok s _ _ sw sh b1 b2 c1 c2

lemma resizeGray16_ok (r : resizer.Config) (s : resizer.SrcImage) (sw sh : ℤ)
    (h1 : 1 ≤ r.targetWidth) (h2 : r.targetWidth ≤ 65535)
    (h3 : 1 ≤ r.targetHeight) (h4 : r.targetHeight ≤ 65535)
    (h5 : 1 ≤ sw) (h6 : 1 ≤ sh) :
    ∃ g, resizer.resizeGray16 r s sw sh = .ok g := by
  have hv := (validateDimensions_ok_iff r.targetWidth r.targetHeight).2 ⟨h1, h2, h3, h4⟩
  simp only [resizer.resizeGray16, hv]
  apply except_map_exists_ok
  apply exceptMap_ok
  intro y hy
  apply exceptMap_ok
  intro x hx
  have hxlt : (x : ℤ) < r.targetWidth := by
    have := List.mem_range.1 hx
    omega
  have hylt : (y : ℤ) < r.targetHeight := by
    have := List.mem_range.1 hy
    omega
  obtain ⟨b1, b2⟩ := mapped_center_bounds x r.targetWidth sw h1 h5 hxlt
  obtain ⟨c1, c2⟩ := mapped_center_bounds y r.targetHeight sh h3 h6 hylt
  exact sampleGray16_ok s _ _ sw sh b1 b2 c1 c2

/-- Under a valid configuration, `Resize` succeeds on every dispatch path. -/
lemma resize_ok_of_valid (r : resizer.Config) (s : resizer.SrcImage)
    (h : ValidResizeConfig s.width s.height r.targetWidth r.targetHeight) :
    ∃ out, resizer.Resize r (some s) = .ok out := by
  obtain ⟨a1, a2, a3, a4, a5, a6, a7, a8, a9, a10, a11, a12⟩ := h
  have hA : validator.ValidateDimensions s.width s.height = .ok () :=
    (validateDimensions_ok_iff _ _).2 ⟨a1, a2, a3, a4⟩
  have hB : validator.ValidateResizeRatio s.width s.height r.targetWidth r.targetHeight
      = .ok () :=
    (validateResizeRatio_ok_structure _ _ _ _).2
      ⟨hA, (validateDimensions_ok_iff _ _).2 ⟨a5, a6, a7, a8⟩, a9, a10, a11, a12⟩
  cases hm : s.model <;> simp only [resizer.Resize, hA, hB, hm] <;>
    apply except_map_exists_ok <;>
      first
        | exact resizeRGBA_ok r s _ _ a5 a6 a7 a8 a1 a3
        | exact resizeRGBA64_ok r s _ _ a5 a6 a7 a8 a1 a3
        | exact resizeGray_ok r s _ _ a5 a6 a7 a8 a1 a3
        | exact resizeGray16_ok r s _ _ a5 a6 a7 a8 a1 a3

/-- Whenever `Resize` succeeds, the output has exactly the target
dimensions, on all dispatch paths. -/
lemma resize_dims (r : resizer.Config) (src : Option resizer.SrcImage) (out : resizer.OutImage)
    (h : resizer.Resize r src = .ok out) :
    out.width = r.targetWidth ∧ out.height = r.targetHeight := by
  cases src with
  | none => simp [resizer.Resize] at h
  | some s =>
    rcases validateDimensions_cases s.width s.height with hA | hA
    · rcases validateResizeRatio_cases s.width s.height r.targetWidth r.targetHeight with hB | hB
      · cases hm : s.model
        all_goals simp only [resizer.Resize, hA, hB, hm] at h
        all_goals obtain ⟨g, hpath, hout⟩ := except_map_ok_inv _ _ _ h
        all_goals rw [hout]
        all_goals
          first
            | simpa [resizer.OutImage.width, resizer.OutImage.height]
                using resizeRGBA_dims r s s.width s.height g hpath
            | simpa [resizer.OutImage.width, resizer.OutImage.height]
                using resizeRGBA64_dims r s s.width s.height g hpath
            | simpa [resizer.OutImage.width, resizer.OutImage.height]
                using resizeGray_dims r s s.width s.height g hpath
            | simpa [resizer.OutImage.width, resizer.OutImage.height]
                using resizeGray16_dims r s s.width s.height g hpath
      · simp only [resizer.Resize, hA, hB, reduceCtorEq] at h
    · simp only [resizer.Resize, hA, reduceCtorEq] at h

/-- `Resize` reports the configuration error exactly on the invalid
configurations. -/
lemma resize_config_error_iff (r : resizer.Config) (s : resizer.SrcImage) :
    resizer.Resize r (some s) = .error .invalidDimension ↔
      ¬ ValidResizeConfig s.width s.height r.targetWidth r.targetHeight := by
  constructor
  · intro herr hvalid
    obtain ⟨out, hout⟩ := resize_ok_of_valid r s hvalid
    rw [hout] at herr
    exact absurd herr (by simp)
  · intro hnotvalid
    rcases validateDimensions_cases s.width s.height with hA | hA
    · rcases validateResizeRatio_cases s.width s.height r.targetWidth r.targetHeight with hB | hB
      · exfalso
        apply hnotvalid
        have hd1 := (validateDimensions_ok_iff _ _).1 hA
        have hstruct := (validateResizeRatio_ok_structure _ _ _ _).1 hB
        have hd2 := (validateDimensions_ok_iff _ _).1 hstruct.2.1
        exact ⟨hd1.1, hd1.2.1, hd1.2.2.1, hd1.2.2.2, hd2.1, hd2.2.1, hd2.2.2.1, hd2.2.2.2,
          hstruct.2.2.1, hstruct.2.2.2.1, hstruct.2.2.2.2.1, hstruct.2.2.2.2.2⟩
      · simp only [resizer.Resize, hA, hB]
    · simp only [resizer.Resize, hA]

lemma newResizer_ok_iff (tw th q : ℤ) :
    (∃ r2, resizer.NewResizer ⟨tw, th, q⟩ = .ok r2)
      ↔ validator.ValidateDimensions tw th = .ok () := by
  rcases validateDimensions_cases tw th with hv | hv <;>
    simp only [resizer.NewResizer, hv] <;> (try split_ifs) <;> simp [hv]

lemma newResizer_quality (tw th q : ℤ) (r2 : resizer.Config)
    (h : resizer.NewResizer ⟨tw, th, q⟩ = .ok r2) :
    r2.quality = if q < 0 ∨ q > 100 then 100 else q := by
  rcases validateDimensions_cases tw th with hv | hv <;>
    simp only [resizer.NewResizer, hv, reduceCtorEq] at h
  split_ifs at h with hq
  · rw [← Except.ok.inj h, if_pos hq]
  · rw [← Except.ok.inj h, if_neg hq]

lemma resize_quality_independent (tw th q1 q2 : ℤ) (src : Option resizer.SrcImage) :
    resizer.Resize ⟨tw, th, q1⟩ src = resizer.Resize ⟨tw, th, q2⟩ src := by
  cases src with
  | none => rfl
  | some s => rfl

/-! ## Claim theorems -/

/-- C1 (counterexample): the claim `CubicWeight(0) = 1` is false on the
code: the Mitchell-Netravali filter with B = C = 1/3 evaluates to
`(6 - 2B)/6 = 8/9` at 0. -/
theorem C1_counterexample : interpolation.CubicWeight 0 ≠ 1 := by
  have h : interpolation.CubicWeight 0 = 8/9 := by with_unfolding_all rfl
  rw [h]
  norm_num

/-- C1 (amended): `CubicWeight(0) = 8/9` (not 1), and `CubicWeight(x) = 0`
for every `x` with `|x| ≥ 2`. -/
theorem C1_amended : interpolation.CubicWeight 0 = 8/9
    ∧ ∀ x : ℚ, 2 ≤ |x| → interpolation.CubicWeight x = 0 := by
  constructor
  · with_unfolding_all rfl
  · exact fun x h => cubicWeight_of_two_le x h

/-- C1 witness: the amended claim evaluated at `x = 3`. -/
theorem C1_witness : interpolation.CubicWeight 0 = 8/9
    ∧ interpolation.CubicWeight 3 = 0 :=
  ⟨C1_amended.1, C1_amended.2 3 (by rw [abs_of_nonneg] <;> norm_num)⟩

/-- C2: for every valid configuration and non-nil source, a successful
`Resize` returns a buffer whose width and height equal the target
dimensions exactly, on every dispatch path. -/
theorem C2_exact_dimensions :
    ∀ (r : resizer.Config) (s : resizer.SrcImage) (out : resizer.OutImage),
      ValidResizeConfig s.width s.height r.targetWidth r.targetHeight →
      resizer.Resize r (some s) = .ok out →
      out.width = r.targetWidth ∧ out.height = r.targetHeight :=
  fun r s out _ h => resize_dims r (some s) out h

/-- C2 witness: a concrete 1x1 gray resize evaluated end to end. -/
theorem C2_witness :
    resizer.Resize ⟨1, 1, 100⟩ (some resizer.srcGray1) = .ok (.gray8 ⟨1, 1, [[128]]⟩)
    ∧ (resizer.OutImage.gray8 ⟨1, 1, [[128]]⟩).width = 1
    ∧ (resizer.OutImage.gray8 ⟨1, 1, [[128]]⟩).height = 1 := by
  have hrun : resizer.Resize ⟨1, 1, 100⟩ (some resizer.srcGray1)
      = .ok (.gray8 ⟨1, 1, [[128]]⟩) := by with_unfolding_all rfl
  obtain ⟨hw, hh⟩ := C2_exact_dimensions ⟨1, 1, 100⟩ resizer.srcGray1 (.gray8 ⟨1, 1, [[128]]⟩)
    (by norm_num [ValidResizeConfig, resizer.srcGray1]) hrun
  exact ⟨hrun, hw, hh⟩

/-- C3: `Resize` returns the configuration error (`ErrInvalidDimension`,
which is also what both ratio failures wrap) exactly when a dimension lies
outside `[1, 65535]` or a per-axis ratio lies outside `[1/16, 16]`; in the
model an error return carries no image at all, so no partial output exists
for a rejected request. -/
theorem C3_config_error_iff :
    ∀ (r : resizer.Config) (s : resizer.SrcImage),
      resizer.Resize r (some s) = .error .invalidDimension ↔
        ¬ ValidResizeConfig s.width s.height r.targetWidth r.targetHeight :=
  resize_config_error_iff

/-- C3 witness: the spec's 17x upscale scenario `10x10 → 170x170` is
rejected with the invalid-dimension (ratio) failure. -/
theorem C3_witness :
    resizer.Resize ⟨170, 170, 100⟩ (some resizer.srcGray10) = .error .invalidDimension := by
  apply (C3_config_error_iff ⟨170, 170, 100⟩ resizer.srcGray10).2
  norm_num [ValidResizeConfig, resizer.srcGray10]

/-- C4: the 4-tap kernel is normalized (the four weights at offsets
`k - d`, `k ∈ {-1,0,1,2}`, sum to 1 for every `d ∈ [0,1)`), and resizing
the constant-128 4x4 8-bit gray image to 8x8 yields 128 at every pixel. -/
theorem C4_constant_gray_scenario :
    (∀ d : ℚ, 0 ≤ d → d < 1 →
        ∑ i : Fin interpolation.KernelSize, interpolation.CubicWeight ((i.1 : ℚ) - 1 - d) = 1)
    ∧ resizer.Resize ⟨8, 8, 100⟩ (some resizer.srcGray4)
        = .ok (.gray8 ⟨8, 8, List.replicate 8 (List.replicate 8 128)⟩) :=
  ⟨kernel_sum_one, by with_unfolding_all rfl⟩

/-- C4 witness: the kernel normalization evaluated at `d = 1/2`. -/
theorem C4_witness :
    ∑ i : Fin interpolation.KernelSize,
      interpolation.CubicWeight ((i.1 : ℚ) - 1 - (1/2 : ℚ)) = 1 :=
  C4_constant_gray_scenario.1 (1/2) (by norm_num) (by norm_num)

/-- C5: `CalculateKernelBounds` reports the invalid-coordinate error
exactly when `center < 0` or `center ≥ size`, and for in-range centers
returns `(⌊center⌋ - 1, ⌊center⌋ + 3)` — a span of exactly 4, unfiltered
against `[0, size)`. -/
theorem C5_kernel_bounds :
    ∀ (center : ℚ) (size : ℤ),
      (interpolation.CalculateKernelBounds center size = .error .invalidCoordinate
        ↔ (center < 0 ∨ (size : ℚ) ≤ center))
      ∧ (0 ≤ center → center < (size : ℚ) →
          interpolation.CalculateKernelBounds center size
            = .ok (⌊center⌋ - 1, ⌊center⌋ + 3)) := by
  intro center size
  constructor
  · constructor
    · intro herr
      by_contra hcon
      push_neg at hcon
      rw [calculateKernelBounds_ok center size hcon.1 hcon.2] at herr
      exact absurd herr (by simp)
    · exact calculateKernelBounds_err center size
  · exact calculateKernelBounds_ok center size

/-- C5 witness: bounds at center 5.5 with size 10. -/
theorem C5_witness :
    interpolation.CalculateKernelBounds (11/2) 10
      = .ok (⌊(11/2 : ℚ)⌋ - 1, ⌊(11/2 : ℚ)⌋ + 3) :=
  (C5_kernel_bounds (11/2) 10).2 (by norm_num) (by norm_num)

/-- C6: both clamps return results inside `[0, max]` (the return type is
`ℕ`, so the lower bound is structural), equal to `value + 0.5` truncated
toward zero and clamped into the closed range; over the extended model the
same bounds hold at `+Inf` and `-Inf`. -/
theorem C6_clamp_bounds :
    ∀ value : ℚ,
      (interpolation.ClampUint8 value ≤ 255
        ∧ (interpolation.ClampUint8 value : ℤ)
            = min 255 (max 0 (interpolation.truncQ (value + 1/2))))
      ∧ (interpolation.ClampUint16 value ≤ 65535
        ∧ (interpolation.ClampUint16 value : ℤ)
            = min 65535 (max 0 (interpolation.truncQ (value + 1/2))))
      ∧ interpolation.ClampUint8X (.fin value) = interpolation.ClampUint8 value
      ∧ interpolation.ClampUint16X (.fin value) = interpolation.ClampUint16 value
      ∧ interpolation.ClampUint8X .pinf = 255 ∧ interpolation.ClampUint8X .ninf = 0
      ∧ interpolation.ClampUint16X .pinf = 65535 ∧ interpolation.ClampUint16X .ninf = 0 :=
  fun value =>
    ⟨⟨clampUint8_le value, clampUint8_eq value⟩,
     ⟨clampUint16_le value, clampUint16_eq value⟩,
     clampUint8X_fin value, clampUint16X_fin value, rfl, rfl, rfl, rfl⟩

/-- C7: `GetSafeIndex` clamps below to 0, above to `n - 1`, and is the
identity on `[0, n)`. -/
theorem C7_safe_index :
    ∀ (i n : ℤ), 0 < n →
      (i < 0 → interpolation.GetSafeIndex i n = 0)
      ∧ (n ≤ i → interpolation.GetSafeIndex i n = n - 1)
      ∧ (0 ≤ i → i < n → interpolation.GetSafeIndex i n = i) := by
  intro i n _
  unfold interpolation.GetSafeIndex
  refine ⟨fun h => by rw [if_pos h], fun h => ?_, fun h1 h2 => ?_⟩
  · rw [if_neg (by omega), if_pos (by omega)]
  · rw [if_neg (by omega), if_neg (by omega)]

/-- C7 witness: the three regimes evaluated at size 5. -/
theorem C7_witness :
    interpolation.GetSafeIndex (-3) 5 = 0
    ∧ interpolation.GetSafeIndex 7 5 = 4
    ∧ interpolation.GetSafeIndex 2 5 = 2 :=
  ⟨(C7_safe_index (-3) 5 (by decide)).1 (by decide),
   by rw [(C7_safe_index 7 5 (by decide)).2.1 (by decide)]; decide,
   (C7_safe_index 2 5 (by decide)).2.2 (by decide) (by decide)⟩

/-- C8: under a valid configuration every mapped source center lies in
`[0, size)` on its axis, the fractional offsets lie in `[0, 1]`, and
neither `CalculateKernelBounds` nor `InterpolateBicubic` (nor any of the
four samplers built from them) ever returns the invalid-coordinate error
during a resize. -/
theorem C8_no_invalid_coordinate :
    ∀ (s : resizer.SrcImage) (r : resizer.Config),
      ValidResizeConfig s.width s.height r.targetWidth r.targetHeight →
      ∀ x y : ℕ, (x : ℤ) < r.targetWidth → (y : ℤ) < r.targetHeight →
      ∀ sx sy : ℚ,
        sx = ((x : ℚ) + 1/2) * ((s.width : ℚ) / (r.targetWidth : ℚ)) →
        sy = ((y : ℚ) + 1/2) * ((s.height : ℚ) / (r.targetHeight : ℚ)) →
        (0 ≤ sx ∧ sx < (s.width : ℚ)) ∧ (0 ≤ sy ∧ sy < (s.height : ℚ))
        ∧ (0 ≤ sx - (interpolation.truncQ sx : ℚ) ∧ sx - (interpolation.truncQ sx : ℚ) ≤ 1)
        ∧ (0 ≤ sy - (interpolation.truncQ sy : ℚ) ∧ sy - (interpolation.truncQ sy : ℚ) ≤ 1)
        ∧ (∃ b, interpolation.CalculateKernelBounds sx s.width = .ok b)
        ∧ (∃ b, interpolation.CalculateKernelBounds sy s.height = .ok b)
        ∧ (∀ pixels, ∃ v, interpolation.InterpolateBicubic pixels
            (sx - (interpolation.truncQ sx : ℚ)) (sy - (interpolation.truncQ sy : ℚ)) = .ok v)
        ∧ (∃ v, resizer.sampleRGBA s sx sy s.width s.height = .ok v)
        ∧ (∃ v, resizer.sampleRGBA64 s sx sy s.width s.height = .ok v)
        ∧ (∃ v, resizer.sampleGray s sx sy s.width s.height = .ok v)
        ∧ (∃ v, resizer.sampleGray16 s sx sy s.width s.height = .ok v) := by
  intro s r hvalid x y hx hy sx sy hsx hsy
  obtain ⟨a1, -, a3, -, a5, -, a7, -, -, -, -, -⟩ := hvalid
  subst hsx
  subst hsy
  obtain ⟨b1, b2⟩ := mapped_center_bounds x r.targetWidth s.width a5 a1 hx
  obtain ⟨c1, c2⟩ := mapped_center_bounds y r.targetHeight s.height a7 a3 hy
  have dx0 : 0 ≤ ((x : ℚ) + 1/2) * ((s.width : ℚ) / (r.targetWidth : ℚ))
      - (interpolation.truncQ (((x : ℚ) + 1/2) * ((s.width : ℚ) / (r.targetWidth : ℚ))) : ℚ) := by
    rw [truncQ_of_nonneg _ b1]
    exact sub_floor_nonneg _
  have dx1 : ((x : ℚ) + 1/2) * ((s.width : ℚ) / (r.targetWidth : ℚ))
      - (interpolation.truncQ (((x : ℚ) + 1/2) * ((s.width : ℚ) / (r.targetWidth : ℚ))) : ℚ)
        ≤ 1 := by
    rw [truncQ_of_nonneg _ b1]
    exact le_of_lt (sub_floor_lt_one _)
  have dy0 : 0 ≤ ((y : ℚ) + 1/2) * ((s.height : ℚ) / (r.targetHeight : ℚ))
      - (interpolation.truncQ (((y : ℚ) + 1/2) * ((s.height : ℚ) / (r.targetHeight : ℚ))) : ℚ) := by
    rw [truncQ_of_nonneg _ c1]
    exact sub_floor_nonneg _
  have dy1 : ((y : ℚ) + 1/2) * ((s.height : ℚ) / (r.targetHeight : ℚ))
      - (interpolation.truncQ (((y : ℚ) + 1/2) * ((s.height : ℚ) / (r.targetHeight : ℚ))) : ℚ)
        ≤ 1 := by
    rw [truncQ_of_nonneg _ c1]
    exact le_of_lt (sub_floor_lt_one _)
  exact ⟨⟨b1, b2⟩, ⟨c1, c2⟩, ⟨dx0, dx1⟩, ⟨dy0, dy1⟩,
    ⟨_, calculateKernelBounds_ok _ _ b1 b2⟩,
    ⟨_, calculateKernelBounds_ok _ _ c1 c2⟩,
    fun pixels => ⟨_, interpolateBicubic_ok pixels _ _ dx0 dx1 dy0 dy1⟩,
    sampleRGBA_ok s _ _ _ _ b1 b2 c1 c2,
    sampleRGBA64_ok s _ _ _ _ b1 b2 c1 c2,
    sampleGray_ok s _ _ _ _ b1 b2 c1 c2,
    sampleGray16_ok s _ _ _ _ b1 b2 c1 c2⟩

/-- C8 witness: the valid 4x4 → 8x8 configuration at destination pixel
(0,0), whose mapped center is 1/4 on both axes. -/
theorem C8_witness :
    ((0 : ℚ) ≤ 1/4 ∧ (1/4 : ℚ) < ((4 : ℤ) : ℚ))
    ∧ ((0 : ℚ) ≤ 1/4 ∧ (1/4 : ℚ) < ((4 : ℤ) : ℚ))
    ∧ (0 ≤ (1/4 : ℚ) - (interpolation.truncQ (1/4) : ℚ)
        ∧ (1/4 : ℚ) - (interpolation.truncQ (1/4) : ℚ) ≤ 1)
    ∧ (0 ≤ (1/4 : ℚ) - (interpolation.truncQ (1/4) : ℚ)
        ∧ (1/4 : ℚ) - (interpolation.truncQ (1/4) : ℚ) ≤ 1)
    ∧ (∃ b, interpolation.CalculateKernelBounds (1/4) 4 = .ok b)
    ∧ (∃ b, interpolation.CalculateKernelBounds (1/4) 4 = .ok b)
    ∧ (∀ pixels, ∃ v, interpolation.InterpolateBicubic pixels
        ((1/4 : ℚ) - (interpolation.truncQ (1/4) : ℚ))
        ((1/4 : ℚ) - (interpolation.truncQ (1/4) : ℚ)) = .ok v)
    ∧ (∃ v, resizer.sampleRGBA resizer.srcGray4 (1/4) (1/4) 4 4 = .ok v)
    ∧ (∃ v, resizer.sampleRGBA64 resizer.srcGray4 (1/4) (1/4) 4 4 = .ok v)
    ∧ (∃ v, resizer.sampleGray resizer.srcGray4 (1/4) (1/4) 4 4 = .ok v)
    ∧ (∃ v, resizer.sampleGray16 resizer.srcGray4 (1/4) (1/4) 4 4 = .ok v) :=
  C8_no_invalid_coordinate resizer.srcGray4 ⟨8, 8, 100⟩
    (by norm_num [ValidResizeConfig, resizer.srcGray4]) 0 0 (by norm_num) (by norm_num)
    (1/4) (1/4) (by norm_num [resizer.srcGray4]) (by norm_num [resizer.srcGray4])

/-- C9: the two polynomial pieces of `CubicWeight` agree exactly at the
boundary `|x| = 1` (both equal `B/6 = 1/18`), and the second piece is
exactly 0 at `|x| = 2`, matching the zero tail — so the function is
continuous at both piece boundaries. -/
theorem C9_piece_boundary_agreement :
    interpolation.piece1 1 = interpolation.mnB / 6
    ∧ interpolation.piece2 1 = interpolation.mnB / 6
    ∧ interpolation.piece1 1 = 1/18 ∧ interpolation.piece2 1 = 1/18
    ∧ interpolation.piece2 2 = 0
    ∧ interpolation.CubicWeight 1 = 1/18 ∧ interpolation.CubicWeight 2 = 0 := by
  refine ⟨?_, ?_, ?_, ?_, ?_, ?_, ?_⟩ <;> with_unfolding_all rfl

/-- C10: `Quality` never influences resampling: `Resize` output is
identical for configurations differing only in `Quality`, `NewResizer`
acceptance depends only on the target dimensions, and an out-of-range
`Quality` is silently replaced by 100. -/
theorem C10_quality_no_effect :
    ∀ (tw th q1 q2 : ℤ) (src : Option resizer.SrcImage),
      resizer.Resize ⟨tw, th, q1⟩ src = resizer.Resize ⟨tw, th, q2⟩ src
      ∧ ((∃ r2, resizer.NewResizer ⟨tw, th, q1⟩ = .ok r2)
          ↔ validator.ValidateDimensions tw th = .ok ())
      ∧ (∀ r2, resizer.NewResizer ⟨tw, th, q1⟩ = .ok r2 →
          r2.quality = if q1 < 0 ∨ q1 > 100 then 100 else q1) :=
  fun tw th q1 q2 src =>
    ⟨resize_quality_independent tw th q1 q2 src,
     newResizer_ok_iff tw th q1,
     fun r2 h => newResizer_quality tw th q1 r2 h⟩

/-- C10 witness: quality 999 and 50 produce the same result; the stored
quality of an accepted out-of-range configuration is 100. -/
theorem C10_witness :
    resizer.Resize ⟨1, 1, 999⟩ none = resizer.Resize ⟨1, 1, 50⟩ none
    ∧ ((∃ r2, resizer.NewResizer ⟨1, 1, 999⟩ = .ok r2)
        ↔ validator.ValidateDimensions 1 1 = .ok ())
    ∧ (⟨1, 1, 100⟩ : resizer.Config).quality
        = if (999 : ℤ) < 0 ∨ (999 : ℤ) > 100 then 100 else 999 := by
  obtain ⟨he, hiff, hq⟩ := C10_quality_no_effect 1 1 999 50 none
  exact ⟨he, hiff, hq ⟨1, 1, 100⟩ (by with_unfolding_all rfl)⟩
